import Mathlib

/-!
Verification development for the `dfplayer-serial` crate (`src/lib.rs`).

The crate drives a DFPlayer-style UART audio module.  This file gives a
shallow embedding of the protocol core: the checksum function, the
command catalogue with its checked numeric conversion, the frame
encoder used by `send_command`, the incremental stream scanner of
`read_last_message`, and the session logic of `send_command`,
`reset`, `try_new`, `volume` and `play`.

Bytes are modelled as `Nat` values; every byte delivered by the
transport is a `u8` in the source, so byte lists carry values below
256.  The asynchronous transport is modelled deterministically: the
data the device will ever deliver is a list of read batches
(`List (List Nat)`); `read_ready` is true exactly while batches
remain, and once they are exhausted the wait loop times out.
Machine-integer arithmetic is carried out on `Nat` with explicit
`% 65536` where the source relies on `u16` wrapping.
-/

namespace DfPlayer

/-- Protocol constants, `lib.rs` lines 15-19. -/
def START_BYTE : Nat := 0x7E

def END_BYTE : Nat := 0xEF

def VERSION : Nat := 0xFF

def MSG_LEN : Nat := 0x06

/-- Device-reported fault codes, `enum ModuleError`, `lib.rs` lines 53-62. -/
inductive ModuleError where
  | Busy
  | Sleeping
  | SerialRxError
  | Checksum
  | TrackNotInScope
  | TrackNotFound
  | InsertionError
  | EnterSleep
deriving DecidableEq, Repr

/-- Discriminant of each `ModuleError` variant (`repr(u8)` values 1..8). -/
def ModuleError.toU8 : ModuleError → Nat
  | .Busy => 1
  | .Sleeping => 2
  | .SerialRxError => 3
  | .Checksum => 4
  | .TrackNotInScope => 5
  | .TrackNotFound => 6
  | .InsertionError => 7
  | .EnterSleep => 8

/-- Partial inverse of `ModuleError.toU8`: the variant with the given
discriminant, if any. -/
def ModuleError.fromDiscriminant : Nat → Option ModuleError
  | 1 => some .Busy
  | 2 => some .Sleeping
  | 3 => some .SerialRxError
  | 4 => some .Checksum
  | 5 => some .TrackNotInScope
  | 6 => some .TrackNotFound
  | 7 => some .InsertionError
  | 8 => some .EnterSleep
  | _ => none

/-- `impl TryFrom<u8> for ModuleError`, `lib.rs` lines 64-76: values in
`1..=8` are transmuted to the variant with that discriminant (the
transmute is total on this range), everything else is `Err`. -/
def moduleErrorTryFrom (b : Nat) : Option ModuleError :=
  if 1 ≤ b ∧ b ≤ 8 then ModuleError.fromDiscriminant b else none

/-- The command/notification catalogue, `enum Command`, `lib.rs`
lines 113-200.  Discriminants are `0x01..=0x1A` and `0x3A..=0x4F`. -/
inductive Command where
  | Next
  | Previous
  | PlayTrack
  | VolumeUp
  | VolumeDown
  | SetVolume
  | SetEQ
  | PlayLoopTrack
  | SetPlaybackSource
  | EnterSleepMode
  | EnterNormalMode
  | Reset
  | Play
  | Pause
  | PlayTrackInFolder
  | ConfigAudioAmp
  | PlayLoopAll
  | PlayTrackInMp3Folder
  | StartAdvertisement
  | PlayTrackLargeFolder
  | StopAdvertisement
  | Stop
  | PlayLoopFolder
  | PlayRandom
  | LoopCurrentTrack
  | SetDAC
  | NotifyPushMedia
  | NotifyPullOutMedia
  | NotifyFinishTrackUSBFlash
  | NotifyFinishTrackSD
  | NotifyFinishTrackUSBHost
  | QueryAvailableSources
  | NotifyError
  | NotifyReply
  | QueryStatus
  | QueryVolume
  | QueryEQ
  | ReservedQueryPlaybackMode
  | ReservedQuerySwVersion
  | QueryTrackCntUSB
  | QueryTrackCntSD
  | ReservedQueryTrackCntPC
  | ReservedQueryKeepOn
  | QueryCurrentTrackUSBFlash
  | QueryCurrentTrackSD
  | QueryCurrentTrackUSBHost
  | QueryFolderTrackCnt
  | QueryFolderCnt
deriving DecidableEq, Repr

/-- Discriminant of each `Command` variant (`repr(u8)` values from the
source enum). -/
def Command.toU8 : Command → Nat
  | .Next => 0x01
  | .Previous => 0x02
  | .PlayTrack => 0x03
  | .VolumeUp => 0x04
  | .VolumeDown => 0x05
  | .SetVolume => 0x06
  | .SetEQ => 0x07
  | .PlayLoopTrack => 0x08
  | .SetPlaybackSource => 0x09
  | .EnterSleepMode => 0x0A
  | .EnterNormalMode => 0x0B
  | .Reset => 0x0C
  | .Play => 0x0D
  | .Pause => 0x0E
  | .PlayTrackInFolder => 0x0F
  | .ConfigAudioAmp => 0x10
  | .PlayLoopAll => 0x11
  | .PlayTrackInMp3Folder => 0x12
  | .StartAdvertisement => 0x13
  | .PlayTrackLargeFolder => 0x14
  | .StopAdvertisement => 0x15
  | .Stop => 0x16
  | .PlayLoopFolder => 0x17
  | .PlayRandom => 0x18
  | .LoopCurrentTrack => 0x19
  | .SetDAC => 0x1A
  | .NotifyPushMedia => 0x3A
  | .NotifyPullOutMedia => 0x3B
  | .NotifyFinishTrackUSBFlash => 0x3C
  | .NotifyFinishTrackSD => 0x3D
  | .NotifyFinishTrackUSBHost => 0x3E
  | .QueryAvailableSources => 0x3F
  | .NotifyError => 0x40
  | .NotifyReply => 0x41
  | .QueryStatus => 0x42
  | .QueryVolume => 0x43
  | .QueryEQ => 0x44
  | .ReservedQueryPlaybackMode => 0x45
  | .ReservedQuerySwVersion => 0x46
  | .QueryTrackCntUSB => 0x47
  | .QueryTrackCntSD => 0x48
  | .ReservedQueryTrackCntPC => 0x49
  | .ReservedQueryKeepOn => 0x4A
  | .QueryCurrentTrackUSBFlash => 0x4B
  | .QueryCurrentTrackSD => 0x4C
  | .QueryCurrentTrackUSBHost => 0x4D
  | .QueryFolderTrackCnt => 0x4E
  | .QueryFolderCnt => 0x4F

/-- Partial inverse of `Command.toU8`: the variant with the given
discriminant, if any. -/
def Command.fromDiscriminant : Nat → Option Command
  | 0x01 => some .Next
  | 0x02 => some .Previous
  | 0x03 => some .PlayTrack
  | 0x04 => some .VolumeUp
  | 0x05 => some .VolumeDown
  | 0x06 => some .SetVolume
  | 0x07 => some .SetEQ
  | 0x08 => some .PlayLoopTrack
  | 0x09 => some .SetPlaybackSource
  | 0x0A => some .EnterSleepMode
  | 0x0B => some .EnterNormalMode
  | 0x0C => some .Reset
  | 0x0D => some .Play
  | 0x0E => some .Pause
  | 0x0F => some .PlayTrackInFolder
  | 0x10 => some .ConfigAudioAmp
  | 0x11 => some .PlayLoopAll
  | 0x12 => some .PlayTrackInMp3Folder
  | 0x13 => some .StartAdvertisement
  | 0x14 => some .PlayTrackLargeFolder
  | 0x15 => some .StopAdvertisement
  | 0x16 => some .Stop
  | 0x17 => some .PlayLoopFolder
  | 0x18 => some .PlayRandom
  | 0x19 => some .LoopCurrentTrack
  | 0x1A => some .SetDAC
  | 0x3A => some .NotifyPushMedia
  | 0x3B => some .NotifyPullOutMedia
  | 0x3C => some .NotifyFinishTrackUSBFlash
  | 0x3D => some .NotifyFinishTrackSD
  | 0x3E => some .NotifyFinishTrackUSBHost
  | 0x3F => some .QueryAvailableSources
  | 0x40 => some .NotifyError
  | 0x41 => some .NotifyReply
  | 0x42 => some .QueryStatus
  | 0x43 => some .QueryVolume
  | 0x44 => some .QueryEQ
  | 0x45 => some .ReservedQueryPlaybackMode
  | 0x46 => some .ReservedQuerySwVersion
  | 0x47 => some .QueryTrackCntUSB
  | 0x48 => some .QueryTrackCntSD
  | 0x49 => some .ReservedQueryTrackCntPC
  | 0x4A => some .ReservedQueryKeepOn
  | 0x4B => some .QueryCurrentTrackUSBFlash
  | 0x4C => some .QueryCurrentTrackSD
  | 0x4D => some .QueryCurrentTrackUSBHost
  | 0x4E => some .QueryFolderTrackCnt
  | 0x4F => some .QueryFolderCnt
  | _ => none

/-- The range guard of `impl TryFrom<u8> for Command`, `lib.rs` line 206:
the match arm `0..=0x1a | 0x3C..=0x4D`.  (`b : Nat` so `0 ≤ b` is
implicit.) -/
def commandTryFromAccepts (b : Nat) : Bool :=
  (b ≤ 0x1A) || (0x3C ≤ b && b ≤ 0x4D)

/-- `impl TryFrom<u8> for Command`, `lib.rs` lines 202-214: bytes passing
the range guard are transmuted to the variant with that discriminant.
Note the source transmutes byte `0x00` as well although no variant has
discriminant 0 (undefined behavior in the source); the embedding maps
that byte to `none`. -/
def commandTryFrom (b : Nat) : Option Command :=
  if commandTryFromAccepts b then Command.fromDiscriminant b else none

/-- `struct MessageData`, `lib.rs` lines 92-96. -/
structure MessageData where
  command : Command
  param_h : Nat
  param_l : Nat
deriving DecidableEq, Repr

/-- `ACK_MESSAGE_DATA`, `lib.rs` lines 108-109. -/
def ACK_MESSAGE_DATA : MessageData := ⟨Command.NotifyReply, 0, 0⟩

/-- The wrapping `u16` sum accumulated by the loop in `checksum`,
`lib.rs` lines 244-247 (`checksum += b` on `u16`, wrapping
semantics). -/
def wrapSum (buffer : List Nat) : Nat :=
  buffer.foldl (fun a b => (a + b) % 65536) 0

/-- The value computed by `checksum`, `lib.rs` lines 243-252, on a
buffer long enough for the `buffer[2]` access: the wrapping sum of the
bytes, plus 2 when the byte at index 2 is zero, negated in `u16`
two's-complement (`0u16.wrapping_sub`). -/
def checksumVal (buffer : List Nat) : Nat :=
  let s := wrapSum buffer
  let s2 := if buffer.getD 2 0 = 0 then (s + 2) % 65536 else s
  (65536 - s2) % 65536

/-- `pub fn checksum`, `lib.rs` lines 243-252.  The unconditional
`buffer[2]` access panics when the buffer has fewer than 3 bytes;
the panic is modelled as `none`. -/
def checksum (buffer : List Nat) : Option Nat :=
  if buffer.length < 3 then none else some (checksumVal buffer)

/-- The mutable session fields of `struct DfPlayer`, `lib.rs`
lines 254-264, that the send/receive cycle touches (the port itself is
modelled separately as the pending read batches plus a write-success
flag; `timeout` only controls how long the loop polls and is absorbed
into the deterministic transport model). -/
structure PlayerState where
  last_command : MessageData
  last_response : MessageData
  last_cmd_acknowledged : Bool
deriving DecidableEq, Repr

/-- `enum Error`, `lib.rs` lines 78-89, with the transport error payload
dropped (it is opaque to the engine). -/
inductive RError where
  | Init
  | SerialPort
  | FailedAck
  | Connection
  | ModuleError (e : ModuleError)
  | Unknown
  | BrokenMessage
  | UserTimeout
  | BadParameter
deriving DecidableEq, Repr

/-- The 10-byte receive buffer `message`, initialised
`[0u8; DATA_FRAME_SIZE]` in `read_last_message`, `lib.rs` line 302. -/
def initMsg : List Nat := [0, 0, 0, 0, 0, 0, 0, 0, 0, 0]

/-- Outcome of processing one byte of the stream scanner inside
`read_last_message`: either keep scanning with a new index/buffer, or
a 10-byte frame just completed. -/
inductive ScanAction where
  | next (idx : Nat) (msg : List Nat)
  | frame (msg : List Nat)
deriving DecidableEq, Repr

/-- One step of the byte-wise `match current_index` scanner,
`lib.rs` lines 316-398: the byte is stored at `current_index` first;
at index 0 only the start marker advances; at index 9 a non-end-marker
byte resets the index to 0 (discarding the partial frame) while the
end marker completes a frame; any other index stores and advances. -/
def scanByte (idx : Nat) (msg : List Nat) (byte : Nat) : ScanAction :=
  let msg2 := msg.set idx byte
  if idx = 0 then
    if byte = START_BYTE then .next 1 msg2 else .next 0 msg2
  else if idx = 9 then
    if byte ≠ END_BYTE then .next 0 msg2 else .frame msg2
  else
    .next (idx + 1) msg2

/-- What the rest of the current outer-loop iteration of
`read_last_message` does after the inner `for` loop: keep reading
(inner loop consumed the batch without completing a frame), `break`
with `current_index = 0` after a completed frame when more data is
pending, or `return` with a result. -/
inductive StepOut where
  | more (st : PlayerState) (idx : Nat) (msg : List Nat)
  | breakReset (st : PlayerState) (msg : List Nat)
  | ret (st : PlayerState) (r : Except RError Unit)
deriving Repr

/-- The state update on a checksum-valid frame, `lib.rs` lines 343-358:
`last_response` is overwritten with the decoded triple and
`last_cmd_acknowledged` is set when the new response equals
`ACK_MESSAGE_DATA` (an already-set flag is never cleared here). -/
def applyValidFrame (st : PlayerState) (cmd : Command) (ph pl : Nat) :
    PlayerState :=
  let resp : MessageData := ⟨cmd, ph, pl⟩
  { st with
    last_response := resp
    last_cmd_acknowledged :=
      if resp = ACK_MESSAGE_DATA then true else st.last_cmd_acknowledged }

/-- Processing of a completed 10-byte frame, `lib.rs` lines 335-392:
compare the transmitted checksum (bytes 7,8, big-endian) with the
checksum recomputed over bytes 1..6; on a valid checksum decode the
command (early `return Err(Unknown)` on an unrecognized code) and
update the session state; then, if more data is pending (`i < cnt - 1`
or `read_ready`), `break` back to scanning with index 0, else `return`
the outcome: a `ModuleError`/`Unknown` failure for an error
notification, `Ok(())` for any other valid frame, `BrokenMessage` for
a checksum mismatch. -/
def handleFrame (st : PlayerState) (msg : List Nat) (moreData : Bool) :
    StepOut :=
  let read_checksum := msg.getD 7 0 * 256 + msg.getD 8 0
  let calc_checksum := checksumVal ((msg.drop 1).take 6)
  if read_checksum = calc_checksum then
    match commandTryFrom (msg.getD 3 0) with
    | none => .ret st (.error .Unknown)
    | some cmd =>
      let st2 := applyValidFrame st cmd (msg.getD 5 0) (msg.getD 6 0)
      if moreData then .breakReset st2 msg
      else if st2.last_response.command = Command.NotifyError then
        match moduleErrorTryFrom st2.last_response.param_l with
        | some e => .ret st2 (.error (.ModuleError e))
        | none => .ret st2 (.error .Unknown)
      else .ret st2 (.ok ())
  else
    if moreData then .breakReset st msg
    else .ret st (.error .BrokenMessage)

/-- The inner `for i in 0..cnt` loop of `read_last_message`,
`lib.rs` lines 315-399, over one read batch.  `restReady` is whether
the transport reports further batches ready once this one is spent
(the `self.port.read_ready()` half of the more-data test). -/
def runChunk :
    PlayerState → Nat → List Nat → List Nat → Bool → StepOut
  | st, idx, msg, [], _ => .more st idx msg
  | st, idx, msg, byte :: rest, restReady =>
    match scanByte idx msg byte with
    | .next idx2 msg2 => runChunk st idx2 msg2 rest restReady
    | .frame msg2 => handleFrame st msg2 (!rest.isEmpty || restReady)

/-- `pub async fn read_last_message`, `lib.rs` lines 297-402, over the
deterministic transport model: each outer-loop iteration reads the
next pending batch; once no batch is pending `read_ready` stays false
and the poll loop times out (`UserTimeout`).  Returns the result, the
final session state, and the batches left unread (nonempty only after
the early `return Err(Unknown)` on an unrecognized command code). -/
def readLastMessage :
    PlayerState → Nat → List Nat → List (List Nat) →
    Except RError Unit × PlayerState × List (List Nat)
  | st, _, _, [] => (.error .UserTimeout, st, [])
  | st, idx, msg, chunk :: rest =>
    match runChunk st idx msg chunk (!rest.isEmpty) with
    | .more st2 idx2 msg2 => readLastMessage st2 idx2 msg2 rest
    | .breakReset st2 msg2 => readLastMessage st2 0 msg2 rest
    | .ret st2 r => (r, st2, rest)

/-- The 10-byte frame assembled by `send_command`, `lib.rs`
lines 410-422: start marker, version, length, command code, feedback
flag, the two parameter bytes, the big-endian checksum over bytes
1..6, end marker. -/
def buildFrame (cmd : Command) (ph pl : Nat) (feedback : Bool) :
    List Nat :=
  let fb := if feedback then 1 else 0
  let cs := checksumVal [VERSION, MSG_LEN, cmd.toU8, fb, ph, pl]
  [START_BYTE, VERSION, MSG_LEN, cmd.toU8, fb, ph, pl,
    cs / 256, cs % 256, END_BYTE]

/-- Result of a session operation: the returned value, the session
state afterwards, the bytes written to the transport by this
operation, and the read batches still pending. -/
structure SendResult where
  result : Except RError Unit
  state : PlayerState
  written : List Nat
  remaining : List (List Nat)
deriving Repr

/-- `pub async fn send_command`, `lib.rs` lines 406-455: encode and
write the frame (a failing write surfaces as `SerialPort` with no
bytes delivered), record the command, clear the acknowledgement flag,
run `read_last_message` and propagate its error; with feedback enabled
and a non-`Reset` command an unset acknowledgement flag is
`FailedAck`; otherwise drain one more message when data is still ready
(its result discarded, its state changes kept) and succeed. -/
def send_command (feedback writeOk : Bool) (st : PlayerState)
    (chunks : List (List Nat)) (cd : MessageData) : SendResult :=
  if writeOk then
    let frame := buildFrame cd.command cd.param_h cd.param_l feedback
    let st2 : PlayerState :=
      { st with last_command := cd, last_cmd_acknowledged := false }
    match readLastMessage st2 0 initMsg chunks with
    | (.error e, st3, rem) => ⟨.error e, st3, frame, rem⟩
    | (.ok _, st3, rem) =>
      if feedback ∧ cd.command ≠ Command.Reset then
        if st3.last_cmd_acknowledged ≠ true then
          ⟨.error .FailedAck, st3, frame, rem⟩
        else
          ⟨.ok (), st3, frame, rem⟩
      else
        if rem ≠ [] then
          match readLastMessage st3 0 initMsg rem with
          | (_, st4, rem2) => ⟨.ok (), st4, frame, rem2⟩
        else
          ⟨.ok (), st3, frame, rem⟩
  else
    ⟨.error .SerialPort, st, [], chunks⟩

/-- `pub async fn reset`, `lib.rs` lines 460-475: send the `Reset`
command, propagate its error, wait the settle delay, then run
`read_last_message` once more and propagate its error. -/
def reset (feedback writeOk : Bool) (st : PlayerState)
    (chunks : List (List Nat)) : SendResult :=
  let r := send_command feedback writeOk st chunks ⟨Command.Reset, 0, 0⟩
  match r.result with
  | .error _ => r
  | .ok _ =>
    match readLastMessage r.state 0 initMsg r.remaining with
    | (r2, st2, rem2) => ⟨r2, st2, r.written, rem2⟩

/-- The session state `try_new` starts from, `lib.rs` lines 283-290. -/
def defaultState : PlayerState :=
  ⟨⟨Command.EnterNormalMode, 0, 0⟩, ⟨Command.EnterNormalMode, 0, 0⟩, false⟩

/-- `pub async fn try_new`, `lib.rs` lines 272-295: one best-effort
`read_last_message` whose result is discarded (state changes kept),
then `reset`, whose error is propagated. -/
def try_new (feedback writeOk : Bool) (chunks : List (List Nat)) :
    SendResult :=
  match readLastMessage defaultState 0 initMsg chunks with
  | (_, st1, rem1) => reset feedback writeOk st1 rem1

/-- `pub async fn volume`, `lib.rs` lines 491-497: values above 30 fail
with `BadParameter` before any transport access. -/
def volume (feedback writeOk : Bool) (st : PlayerState)
    (chunks : List (List Nat)) (v : Nat) : SendResult :=
  if v > 30 then ⟨.error .BadParameter, st, [], chunks⟩
  else send_command feedback writeOk st chunks ⟨Command.SetVolume, 0, v⟩

/-- `pub async fn play`, `lib.rs` lines 499-509: track numbers above
2999 fail with `BadParameter` before any transport access; otherwise
the track number is split big-endian into the parameter bytes. -/
def play (feedback writeOk : Bool) (st : PlayerState)
    (chunks : List (List Nat)) (t : Nat) : SendResult :=
  if t > 2999 then ⟨.error .BadParameter, st, [], chunks⟩
  else
    send_command feedback writeOk st chunks
      ⟨Command.PlayTrack, t / 256 % 256, t % 256⟩

/-- The decoding steps `read_last_message` applies to a completed
frame, `lib.rs` lines 335-355, as a standalone codec function: the
command extracted through the checked conversion (`none` when the code
is outside the accepted ranges), the two parameter bytes, and whether
the transmitted big-endian checksum matches the one recomputed over
bytes 1..6. -/
def decodeFrame (frame : List Nat) : Option MessageData × Bool :=
  let read_checksum := frame.getD 7 0 * 256 + frame.getD 8 0
  let calc_checksum := checksumVal ((frame.drop 1).take 6)
  let valid : Bool := read_checksum = calc_checksum
  match commandTryFrom (frame.getD 3 0) with
  | none => (none, valid)
  | some cmd => (some ⟨cmd, frame.getD 5 0, frame.getD 6 0⟩, valid)

/-- Excludes the one `Error` constructor `try_new` is specified to use:
holds of results that are not the `Init` failure. -/
def noInitResult (r : Except RError Unit) : Prop :=
  r ≠ .error .Init

/-- Lift of `noInitResult` to scanner-step outcomes. -/
def stepOutNoInit : StepOut → Prop
  | .ret _ r => noInitResult r
  | _ => True

/- ------------------------------------------------------------------ -/
/- Helper lemmas                                                       -/
/- ------------------------------------------------------------------ -/

lemma wrapSum_lt (buffer : List Nat) : wrapSum buffer < 65536 := by
  unfold wrapSum
  have h : ∀ (l : List Nat) (a : Nat), a < 65536 →
      l.foldl (fun a b => (a + b) % 65536) a < 65536 := by
    intro l
    induction l with
    | nil => intro a ha; simpa using ha
    | cons x xs ih =>
        intro a ha
        simpa using ih ((a + x) % 65536) (Nat.mod_lt _ (by omega))
  exact h buffer 0 (by omega)

lemma checksumVal_lt (buffer : List Nat) : checksumVal buffer < 65536 := by
  unfold checksumVal
  split <;> exact Nat.mod_lt _ (by omega)

lemma Command.fromDiscriminant_toU8 (c : Command) :
    Command.fromDiscriminant c.toU8 = some c := by
  cases c <;> rfl

/-- Scanning a well-delimited 10-byte batch from the idle scanner state
walks straight through the buffer and hands the assembled frame to
`handleFrame`. -/
lemma runChunk_frame (st : PlayerState) (b1 b2 b3 b4 b5 b6 b7 b8 : Nat)
    (rr : Bool) :
    runChunk st 0 initMsg
        [START_BYTE, b1, b2, b3, b4, b5, b6, b7, b8, END_BYTE] rr =
      handleFrame st
        [START_BYTE, b1, b2, b3, b4, b5, b6, b7, b8, END_BYTE] rr := by
  rfl

lemma list10_getD3 (a0 a1 a2 a3 a4 a5 a6 a7 a8 a9 : Nat) :
    [a0, a1, a2, a3, a4, a5, a6, a7, a8, a9].getD 3 0 = a3 := rfl

lemma list10_getD5 (a0 a1 a2 a3 a4 a5 a6 a7 a8 a9 : Nat) :
    [a0, a1, a2, a3, a4, a5, a6, a7, a8, a9].getD 5 0 = a5 := rfl

lemma list10_getD6 (a0 a1 a2 a3 a4 a5 a6 a7 a8 a9 : Nat) :
    [a0, a1, a2, a3, a4, a5, a6, a7, a8, a9].getD 6 0 = a6 := rfl

lemma list10_getD7 (a0 a1 a2 a3 a4 a5 a6 a7 a8 a9 : Nat) :
    [a0, a1, a2, a3, a4, a5, a6, a7, a8, a9].getD 7 0 = a7 := rfl

lemma list10_getD8 (a0 a1 a2 a3 a4 a5 a6 a7 a8 a9 : Nat) :
    [a0, a1, a2, a3, a4, a5, a6, a7, a8, a9].getD 8 0 = a8 := rfl

lemma list10_droptake (a0 a1 a2 a3 a4 a5 a6 a7 a8 a9 : Nat) :
    ([a0, a1, a2, a3, a4, a5, a6, a7, a8, a9].drop 1).take 6 =
      [a1, a2, a3, a4, a5, a6] := rfl

/-- A batch whose scan ends exactly at a returned outcome is the whole
story of a one-batch `read_last_message` call. -/
lemma readLastMessage_single (st : PlayerState) (chunk : List Nat)
    (st2 : PlayerState) (r : Except RError Unit)
    (h : runChunk st 0 initMsg chunk false = .ret st2 r) :
    readLastMessage st 0 initMsg [chunk] = (r, st2, []) := by
  have hb : (!List.isEmpty ([] : List (List Nat))) = false := rfl
  simp only [readLastMessage, hb, h]

lemma handleFrame_no_init (st : PlayerState) (msg : List Nat)
    (moreData : Bool) : stepOutNoInit (handleFrame st msg moreData) := by
  unfold handleFrame
  dsimp only
  repeat' split
  all_goals
    first
      | trivial
      | (intro h; exact RError.noConfusion (Except.error.inj h))
      | (intro h; exact Except.noConfusion h)

lemma runChunk_no_init (bytes : List Nat) (st : PlayerState) (idx : Nat)
    (msg : List Nat) (rr : Bool) :
    stepOutNoInit (runChunk st idx msg bytes rr) := by
  induction bytes generalizing st idx msg with
  | nil => trivial
  | cons b rest ih =>
      cases hs : scanByte idx msg b with
      | next idx2 msg2 => simp only [runChunk, hs]; exact ih st idx2 msg2
      | frame msg2 =>
          simp only [runChunk, hs]
          exact handleFrame_no_init st msg2 (!rest.isEmpty || rr)

lemma readLastMessage_no_init (chunks : List (List Nat))
    (st : PlayerState) (idx : Nat) (msg : List Nat) :
    (readLastMessage st idx msg chunks).1 ≠ .error .Init := by
  induction chunks generalizing st idx msg with
  | nil =>
      intro h
      exact RError.noConfusion (Except.error.inj h)
  | cons c rest ih =>
      have h := runChunk_no_init c st idx msg (!rest.isEmpty)
      cases hs : runChunk st idx msg c (!rest.isEmpty) with
      | more st2 idx2 msg2 =>
          simp only [readLastMessage, hs]; exact ih st2 idx2 msg2
      | breakReset st2 msg2 =>
          simp only [readLastMessage, hs]; exact ih st2 0 msg2
      | ret st2 r =>
          simp only [readLastMessage, hs]
          rw [hs] at h
          exact h

lemma send_command_no_init (feedback writeOk : Bool) (st : PlayerState)
    (chunks : List (List Nat)) (cd : MessageData) :
    (send_command feedback writeOk st chunks cd).result ≠ .error .Init := by
  unfold send_command
  split
  · rcases hr : readLastMessage
        { st with last_command := cd, last_cmd_acknowledged := false }
        0 initMsg chunks with ⟨r, st3, rem⟩
    have h := readLastMessage_no_init chunks
      { st with last_command := cd, last_cmd_acknowledged := false } 0 initMsg
    rw [hr] at h
    rcases r with e | u
    · simp only [hr]
      exact h
    · simp only [hr]
      split
      · split
        · intro hh; exact RError.noConfusion (Except.error.inj hh)
        · intro hh; exact Except.noConfusion hh
      · split
        · rcases h2 : readLastMessage st3 0 initMsg rem with ⟨r2, st4, rem2⟩
          simp only [h2]
          intro hh; exact Except.noConfusion hh
        · intro hh; exact Except.noConfusion hh
  · intro hh; exact RError.noConfusion (Except.error.inj hh)

lemma reset_no_init (feedback writeOk : Bool) (st : PlayerState)
    (chunks : List (List Nat)) :
    (reset feedback writeOk st chunks).result ≠ .error .Init := by
  unfold reset
  have h := send_command_no_init feedback writeOk st chunks
    ⟨Command.Reset, 0, 0⟩
  rcases hres : (send_command feedback writeOk st chunks
      ⟨Command.Reset, 0, 0⟩).result with e | u
  · simp only [hres]
    rw [hres] at h
    exact h
  · simp only [hres]
    rcases h2 : readLastMessage
        (send_command feedback writeOk st chunks ⟨Command.Reset, 0, 0⟩).state
        0 initMsg
        (send_command feedback writeOk st chunks
          ⟨Command.Reset, 0, 0⟩).remaining with ⟨r2, st2, rem2⟩
    have h3 := readLastMessage_no_init
      (send_command feedback writeOk st chunks ⟨Command.Reset, 0, 0⟩).remaining
      (send_command feedback writeOk st chunks ⟨Command.Reset, 0, 0⟩).state
      0 initMsg
    rw [h2] at h3
    simp only [h2]
    exact h3

/- ------------------------------------------------------------------ -/
/- Claim theorems                                                      -/
/- ------------------------------------------------------------------ -/

/-- C1 (counterexample): the claim says `checksum` returns the
two's-complement negation of the wrapping sum of the payload bytes for
every payload, with no error cases.  On the payload
`[0xFF, 0x06, 0x00, 0x00, 0x00, 0x00]` (command byte zero) the source
adds a `+2` correction, so the returned value 65273 does not cancel
the wrapping sum 261 modulo 65536; and on a payload shorter than 3
bytes the unconditional `buffer[2]` access panics (modelled `none`),
so the function is not error-free either. -/
theorem c1_checksum_counterexample :
    checksum [0xFF, 0x06, 0x00, 0x00, 0x00, 0x00] = some 65273 ∧
    (wrapSum [0xFF, 0x06, 0x00, 0x00, 0x00, 0x00] + 65273) % 65536 ≠ 0 ∧
    checksum [] = none := by
  decide

/-- C1 (amended): for every payload of at least 3 bytes, `checksum`
returns the 16-bit value that cancels — modulo 65536 — the wrapping
sum of the bytes plus a `+2` correction applied exactly when the byte
at index 2 is zero; payloads shorter than 3 bytes hit the
out-of-bounds `buffer[2]` access instead of returning. -/
theorem c1_checksum_amended (buffer : List Nat) (h3 : 3 ≤ buffer.length) :
    ∃ c, checksum buffer = some c ∧ c < 65536 ∧
      (wrapSum buffer + (if buffer.getD 2 0 = 0 then 2 else 0) + c) %
          65536 = 0 := by
  have hlt := wrapSum_lt buffer
  refine ⟨checksumVal buffer, ?_, checksumVal_lt buffer, ?_⟩
  · unfold checksum
    rw [if_neg (by omega)]
  · unfold checksumVal
    dsimp only
    by_cases h2 : buffer.getD 2 0 = 0
    · rw [if_pos h2, if_pos h2]
      omega
    · rw [if_neg h2, if_neg h2]
      omega

/-- C1 (witness for the amended theorem): instantiated at the 6-byte
payload `[0xFF, 0x06, 0x00, 0x00, 0x00, 0x00]`. -/
theorem c1_checksum_amended_witness :
    3 ≤ ([0xFF, 0x06, 0x00, 0x00, 0x00, 0x00] : List Nat).length ∧
    ∃ c, checksum [0xFF, 0x06, 0x00, 0x00, 0x00, 0x00] = some c ∧
      c < 65536 ∧
      (wrapSum [0xFF, 0x06, 0x00, 0x00, 0x00, 0x00] +
          (if ([0xFF, 0x06, 0x00, 0x00, 0x00, 0x00] : List Nat).getD 2 0 = 0
            then 2 else 0) + c) % 65536 = 0 :=
  ⟨by decide, c1_checksum_amended [0xFF, 0x06, 0x00, 0x00, 0x00, 0x00]
    (by decide)⟩

/-- C2 (code bug): the checked `u8`-to-`Command` conversion is claimed
to return `Ok` exactly on the discriminants of the catalogue and the
failure value on every other byte, with no undefined behavior.  The
source's range guard `0..=0x1a | 0x3C..=0x4D` accepts byte `0x00`,
which is the discriminant of no variant (so the subsequent transmute
is undefined behavior), and rejects `0x3A` and `0x4F`, which are the
discriminants of `NotifyPushMedia` and `QueryFolderCnt` (likewise
`0x3B` and `0x4E`). -/
theorem c2_command_tryfrom_bug :
    commandTryFromAccepts 0x00 = true ∧
    (∀ c : Command, Command.toU8 c ≠ 0x00) ∧
    Command.toU8 Command.NotifyPushMedia = 0x3A ∧
    commandTryFromAccepts 0x3A = false ∧
    Command.toU8 Command.QueryFolderCnt = 0x4F ∧
    commandTryFromAccepts 0x4F = false := by
  refine ⟨rfl, ?_, rfl, rfl, rfl, rfl⟩
  intro c
  cases c <;> decide

/-- C6: when the scanner has reached the end-marker position (index 9)
and the byte there is not the end marker, it discards the partial
frame and resets to index 0 (`AwaitingStart`) without yielding a
frame. -/
theorem c6_scanner_resync (msg : List Nat) (byte : Nat)
    (h : byte ≠ END_BYTE) :
    scanByte 9 msg byte = .next 0 (msg.set 9 byte) := by
  unfold scanByte
  simp [h]

/-- C6 (witness): instantiated at the all-zero buffer and byte 0. -/
theorem c6_scanner_resync_witness :
    (0 : Nat) ≠ END_BYTE ∧
    scanByte 9 initMsg 0 = .next 0 (initMsg.set 9 0) :=
  ⟨by decide, c6_scanner_resync initMsg 0 (by decide)⟩

/-- C7: `volume` rejects every value above 30 and `play` every track
above 2999 with `BadParameter` before any I/O: nothing is written to
the transport, no read batch is consumed, and the session state is
untouched. -/
theorem c7_parameter_validation (feedback writeOk : Bool)
    (st : PlayerState) (chunks : List (List Nat)) (v t : Nat)
    (hv : 30 < v) (ht : 2999 < t) :
    volume feedback writeOk st chunks v =
      ⟨.error .BadParameter, st, [], chunks⟩ ∧
    play feedback writeOk st chunks t =
      ⟨.error .BadParameter, st, [], chunks⟩ := by
  constructor
  · unfold volume
    rw [if_pos hv]
  · unfold play
    rw [if_pos ht]

/-- C7 (witness): instantiated at `volume 31` and `play 3000`. -/
theorem c7_parameter_validation_witness :
    30 < 31 ∧ 2999 < 3000 ∧
    (volume true true defaultState [] 31 =
        ⟨.error .BadParameter, defaultState, [], []⟩ ∧
      play true true defaultState [] 3000 =
        ⟨.error .BadParameter, defaultState, [], []⟩) :=
  ⟨by decide, by decide,
    c7_parameter_validation true true defaultState [] 31 3000
      (by decide) (by decide)⟩

/-- C8 (counterexample): the claim says the acknowledgement flag is set
exactly when the decoded response equals the outstanding command's
`MessageData`.  With `(SetVolume, 0, 20)` outstanding, the
acknowledgement frame decodes to `(NotifyReply, 0, 0)` — different
from the outstanding command's data — yet `read_last_message` sets the
flag. -/
theorem c8_ack_match_counterexample :
    (readLastMessage
        ⟨⟨Command.SetVolume, 0, 20⟩, ⟨Command.EnterNormalMode, 0, 0⟩, false⟩
        0 initMsg
        [[0x7E, 0xFF, 0x06, 0x41, 0x00, 0x00, 0x00, 0xFE, 0xBA,
          0xEF]]).2.1.last_cmd_acknowledged = true ∧
    (readLastMessage
        ⟨⟨Command.SetVolume, 0, 20⟩, ⟨Command.EnterNormalMode, 0, 0⟩, false⟩
        0 initMsg
        [[0x7E, 0xFF, 0x06, 0x41, 0x00, 0x00, 0x00, 0xFE, 0xBA,
          0xEF]]).2.1.last_response ≠ ⟨Command.SetVolume, 0, 20⟩ := by
  decide

/-- C8 (amended): the acknowledgement-match criterion is equality of
the decoded response with the fixed constant `ACK_MESSAGE_DATA =
(NotifyReply, 0, 0)`, not with the outstanding command's data: the
flag is true after a valid frame exactly when the decoded triple
equals that constant or the flag was already set. -/
theorem c8_ack_match_amended (st : PlayerState) (cmd : Command)
    (ph pl : Nat) :
    (applyValidFrame st cmd ph pl).last_cmd_acknowledged = true ↔
      (⟨cmd, ph, pl⟩ : MessageData) = ACK_MESSAGE_DATA ∨
        st.last_cmd_acknowledged = true := by
  unfold applyValidFrame
  by_cases h : (⟨cmd, ph, pl⟩ : MessageData) = ACK_MESSAGE_DATA
  · simp [h]
  · simp [h]

/-- C9: initialization never fails with the `Init` error kind at all in
the source (`Error::Init` is never constructed): in particular
`try_new` fails with `Init` only if the reset command cannot be
transmitted, and no other condition produces it — an untransmittable
reset itself surfaces as the transport error, not as `Init`. -/
theorem c9_try_new_no_init (feedback writeOk : Bool)
    (chunks : List (List Nat)) :
    (try_new feedback writeOk chunks).result ≠ .error .Init := by
  unfold try_new
  rcases h : readLastMessage defaultState 0 initMsg chunks
    with ⟨r, st1, rem1⟩
  simp only [h]
  exact reset_no_init feedback writeOk st1 rem1

/-- C3 (counterexample): the claim quantifies over every command in the
catalogue, but encoding `NotifyPushMedia` (code `0x3A`) and decoding
the frame loses the command: the checked conversion rejects `0x3A`
even though the checksum matches, so the round trip does not yield the
original tuple. -/
theorem c3_roundtrip_counterexample :
    decodeFrame (buildFrame Command.NotifyPushMedia 0 0 false) =
      (none, true) ∧
    (none : Option MessageData) ≠ some ⟨Command.NotifyPushMedia, 0, 0⟩ := by
  decide

/-- C3 (amended): for every command whose code the checked conversion
accepts (the catalogue minus `NotifyPushMedia`, `NotifyPullOutMedia`,
`QueryFolderTrackCnt` and `QueryFolderCnt`), every pair of parameter
bytes and either feedback flag, decoding the encoded 10-byte frame
recovers the original `(command, param_h, param_l)` triple, and the
recomputed checksum matches the transmitted one. -/
theorem c3_roundtrip_amended (cmd : Command) (ph pl : Nat) (fb : Bool)
    (hacc : commandTryFromAccepts cmd.toU8 = true)
    (_hph : ph < 256) (_hpl : pl < 256) :
    decodeFrame (buildFrame cmd ph pl fb) = (some ⟨cmd, ph, pl⟩, true) := by
  unfold decodeFrame buildFrame commandTryFrom
  dsimp only
  simp only [list10_getD3, list10_getD5, list10_getD6, list10_getD7,
    list10_getD8, list10_droptake, hacc, if_true,
    Command.fromDiscriminant_toU8]
  simp
  omega

/-- C3 (witness for the amended theorem): instantiated at
`(SetVolume, 0, 20)` with feedback enabled. -/
theorem c3_roundtrip_amended_witness :
    commandTryFromAccepts (Command.toU8 Command.SetVolume) = true ∧
    (0 : Nat) < 256 ∧ (20 : Nat) < 256 ∧
    decodeFrame (buildFrame Command.SetVolume 0 20 true) =
      (some ⟨Command.SetVolume, 0, 20⟩, true) :=
  ⟨by decide, by decide, by decide,
    c3_roundtrip_amended Command.SetVolume 0 20 true (by decide)
      (by decide) (by decide)⟩

/-- C4: a completed frame with a valid checksum and command code `0x40`
(`NotifyError`), arriving as the last pending data, makes
`read_last_message` fail with the `ModuleError` classified from the
frame's param-low byte, whatever the acknowledgement state; and the
classification yields the variant with the given discriminant exactly
for fault codes 1 through 8 and `Unknown` for every other value. -/
theorem c4_error_notification (st : PlayerState)
    (v l fb ph pl ch cl : Nat)
    (h : ch * 256 + cl = checksumVal [v, l, 0x40, fb, ph, pl]) :
    ((readLastMessage st 0 initMsg
        [[START_BYTE, v, l, 0x40, fb, ph, pl, ch, cl, END_BYTE]]).1 =
      .error (match moduleErrorTryFrom pl with
              | some e => RError.ModuleError e
              | none => RError.Unknown)) ∧
    (∀ b : Nat,
      (1 ≤ b ∧ b ≤ 8 →
        ∃ e, moduleErrorTryFrom b = some e ∧ e.toU8 = b) ∧
      (¬(1 ≤ b ∧ b ≤ 8) → moduleErrorTryFrom b = none)) := by
  constructor
  · have hhf : handleFrame st
        [START_BYTE, v, l, 0x40, fb, ph, pl, ch, cl, END_BYTE] false =
        match moduleErrorTryFrom pl with
        | some e => .ret (applyValidFrame st Command.NotifyError ph pl)
            (.error (.ModuleError e))
        | none => .ret (applyValidFrame st Command.NotifyError ph pl)
            (.error .Unknown) := by
      unfold handleFrame
      dsimp only
      simp only [list10_getD7, list10_getD8, list10_droptake]
      rw [if_pos h]
      rfl
    rcases hm : moduleErrorTryFrom pl with _ | e
    all_goals
      rw [hm] at hhf
      rw [readLastMessage_single st _ _ _
        ((runChunk_frame st v l 0x40 fb ph pl ch cl false).trans hhf)]
  · intro b
    constructor
    · rintro ⟨h1, h2⟩
      unfold moduleErrorTryFrom
      rw [if_pos ⟨h1, h2⟩]
      interval_cases b <;> exact ⟨_, rfl, rfl⟩
    · intro hn
      unfold moduleErrorTryFrom
      rw [if_neg hn]

/-- C4 (witness): instantiated at the concrete error-notification
frame `7E FF 06 40 00 00 04 FE B7 EF` (fault code 4, the checksum
fault). -/
theorem c4_error_notification_witness :
    (0xFE * 256 + 0xB7 =
      checksumVal [0xFF, 0x06, 0x40, 0x00, 0x00, 0x04]) ∧
    (((readLastMessage defaultState 0 initMsg
        [[START_BYTE, 0xFF, 0x06, 0x40, 0x00, 0x00, 0x04, 0xFE, 0xB7,
          END_BYTE]]).1 =
      .error (match moduleErrorTryFrom 4 with
              | some e => RError.ModuleError e
              | none => RError.Unknown)) ∧
    (∀ b : Nat,
      (1 ≤ b ∧ b ≤ 8 →
        ∃ e, moduleErrorTryFrom b = some e ∧ e.toU8 = b) ∧
      (¬(1 ≤ b ∧ b ≤ 8) → moduleErrorTryFrom b = none))) :=
  ⟨by decide,
    c4_error_notification defaultState 0xFF 0x06 0x00 0x00 0x04 0xFE 0xB7
      (by decide)⟩

/-- C5: with feedback enabled and a non-`Reset` command, a read loop
that terminates normally without the acknowledgement flag being set
makes `send_command` fail with `FailedAck`; with feedback disabled the
same missing acknowledgement is not an error and `send_command`
succeeds. -/
theorem c5_failed_ack (st st2 : PlayerState)
    (chunks rem : List (List Nat)) (cd : MessageData)
    (hcd : cd.command ≠ Command.Reset)
    (hread : readLastMessage
        { st with last_command := cd, last_cmd_acknowledged := false }
        0 initMsg chunks = (.ok (), st2, rem))
    (hack : st2.last_cmd_acknowledged = false) :
    (send_command true true st chunks cd).result = .error .FailedAck ∧
    (send_command false true st chunks cd).result = .ok () := by
  constructor
  · simp only [send_command]
    rw [hread]
    simp [hcd, hack]
  · simp only [send_command]
    rw [hread]
    rcases rem with _ | ⟨c, rest⟩
    · simp
    · rcases h2 : readLastMessage st2 0 initMsg (c :: rest)
        with ⟨r2, st4, rem2⟩
      simp [h2]

/-- C5 (witness): instantiated at `SetVolume 20` with the device
answering a valid non-acknowledgement frame (`QueryStatus`). -/
theorem c5_failed_ack_witness :
    (⟨Command.SetVolume, 0, 20⟩ : MessageData).command ≠ Command.Reset ∧
    readLastMessage
        { defaultState with
            last_command := ⟨Command.SetVolume, 0, 20⟩,
            last_cmd_acknowledged := false }
        0 initMsg
        [[START_BYTE, 0xFF, 0x06, 0x42, 0x00, 0x00, 0x00, 0xFE, 0xB9,
          END_BYTE]] =
      (.ok (),
        ⟨⟨Command.SetVolume, 0, 20⟩, ⟨Command.QueryStatus, 0, 0⟩, false⟩,
        []) ∧
    (⟨⟨Command.SetVolume, 0, 20⟩, ⟨Command.QueryStatus, 0, 0⟩, false⟩ :
        PlayerState).last_cmd_acknowledged = false ∧
    ((send_command true true defaultState
        [[START_BYTE, 0xFF, 0x06, 0x42, 0x00, 0x00, 0x00, 0xFE, 0xB9,
          END_BYTE]] ⟨Command.SetVolume, 0, 20⟩).result =
        .error .FailedAck ∧
      (send_command false true defaultState
        [[START_BYTE, 0xFF, 0x06, 0x42, 0x00, 0x00, 0x00, 0xFE, 0xB9,
          END_BYTE]] ⟨Command.SetVolume, 0, 20⟩).result = .ok ()) :=
  ⟨by decide, by rfl, rfl,
    c5_failed_ack defaultState
      ⟨⟨Command.SetVolume, 0, 20⟩, ⟨Command.QueryStatus, 0, 0⟩, false⟩
      [[START_BYTE, 0xFF, 0x06, 0x42, 0x00, 0x00, 0x00, 0xFE, 0xB9,
        END_BYTE]] []
      ⟨Command.SetVolume, 0, 20⟩ (by decide) (by rfl) rfl⟩

/-- C10: a completed 10-byte frame whose recomputed checksum differs
from the transmitted one leaves the session state (in particular
`last_response` and `last_cmd_acknowledged`) unchanged whether or not
more data is pending, and when it is the last pending data
`read_last_message` returns `BrokenMessage`. -/
theorem c10_broken_message (st : PlayerState)
    (b1 b2 b3 b4 b5 b6 b7 b8 : Nat)
    (h : b7 * 256 + b8 ≠ checksumVal [b1, b2, b3, b4, b5, b6]) :
    readLastMessage st 0 initMsg
        [[START_BYTE, b1, b2, b3, b4, b5, b6, b7, b8, END_BYTE]] =
      (.error .BrokenMessage, st, []) ∧
    (∀ more : Bool, handleFrame st
        [START_BYTE, b1, b2, b3, b4, b5, b6, b7, b8, END_BYTE] more =
      if more then
        .breakReset st [START_BYTE, b1, b2, b3, b4, b5, b6, b7, b8, END_BYTE]
      else .ret st (.error .BrokenMessage)) := by
  have hhf : ∀ more : Bool, handleFrame st
      [START_BYTE, b1, b2, b3, b4, b5, b6, b7, b8, END_BYTE] more =
      if more then
        .breakReset st [START_BYTE, b1, b2, b3, b4, b5, b6, b7, b8, END_BYTE]
      else .ret st (.error .BrokenMessage) := by
    intro more
    unfold handleFrame
    dsimp only
    simp only [list10_getD7, list10_getD8, list10_droptake]
    rw [if_neg h]
  have hret := (runChunk_frame st b1 b2 b3 b4 b5 b6 b7 b8 false).trans
    ((hhf false).trans rfl)
  exact ⟨readLastMessage_single st _ st _ hret, hhf⟩

/-- C10 (witness): instantiated at the acknowledgement frame with its
checksum low byte corrupted (`BB` instead of `BA`). -/
theorem c10_broken_message_witness :
    (0xFE * 256 + 0xBB ≠
      checksumVal [0xFF, 0x06, 0x41, 0x00, 0x00, 0x00]) ∧
    (readLastMessage defaultState 0 initMsg
        [[START_BYTE, 0xFF, 0x06, 0x41, 0x00, 0x00, 0x00, 0xFE, 0xBB,
          END_BYTE]] =
      (.error .BrokenMessage, defaultState, []) ∧
    (∀ more : Bool, handleFrame defaultState
        [START_BYTE, 0xFF, 0x06, 0x41, 0x00, 0x00, 0x00, 0xFE, 0xBB,
          END_BYTE] more =
      if more then
        .breakReset defaultState
          [START_BYTE, 0xFF, 0x06, 0x41, 0x00, 0x00, 0x00, 0xFE, 0xBB,
            END_BYTE]
      else .ret defaultState (.error .BrokenMessage))) :=
  ⟨by decide,
    c10_broken_message defaultState 0xFF 0x06 0x41 0x00 0x00 0x00 0xFE 0xBB
      (by decide)⟩

end DfPlayer
